import Mathlib

/-!
Verification of the conjure registration-api server
(`src/registration-api/main.go`, package `main`).

Shallow embedding conventions:
  * Go byte slices are `List Nat` (each entry `< 256` is never needed by the
    properties below, so bytes are plain naturals).
  * A Go `nil`-able value (a pointer field, a `[]byte` that is tested against
    `nil`, a `*net.IP`) is an `Option`.
  * Fallible Go functions return `Except`/`Option`.
  * `proto.Marshal` is an external, out-of-scope serializer of the canonical
    wrapper message (spec section 1 treats the wire format as an opaque,
    already-specified structure); the embedding therefore returns the
    canonical message itself, whose fields stand for the serialized content.
-/

namespace Conjure

/-- `regIDLen` from main.go line 26: length of the registration identifier. -/
def regIDLen : Nat := 16

/-- `SecretLength` from main.go line 27. -/
def SecretLength : Nat := 32

/-- The `RegistrationSource` enumeration of the gotapdance protobuf schema
(external collaborator of main.go). Only `Unspecified` and `API` are
distinguished by the code under verification. -/
inductive RegistrationSource where
  | Unspecified
  | Detector
  | API
  | DetectorPrescan
  | BidirectionalAPI
  | DNS
  | BidirectionalDNS
  deriving DecidableEq, Repr

/-- The `pb.C2SWrapper` protobuf message as used by main.go.
`sharedSecret` is a byte field (`GetSharedSecret` returns the slice, `nil`
behaving as empty, so a plain list suffices); `registrationSource` is a
pointer field (`Option`); `registrationAddress` is a byte field compared
against `nil` by the code (`Option`); `registrationPayload` is a message
pointer treated as opaque bytes. -/
structure C2SWrapper where
  sharedSecret : List Nat
  registrationSource : Option RegistrationSource
  registrationAddress : Option (List Nat)
  registrationPayload : Option (List Nat)
  deriving DecidableEq, Repr

/-- Go generated getter `GetSharedSecret`. -/
def getSharedSecret (w : C2SWrapper) : List Nat := w.sharedSecret

/-- Go generated getter `GetRegistrationSource`: yields `Unspecified` when the
pointer field is nil. -/
def getRegistrationSource (w : C2SWrapper) : RegistrationSource :=
  w.registrationSource.getD .Unspecified

/-- Go generated getter `GetRegistrationAddress`. -/
def getRegistrationAddress (w : C2SWrapper) : Option (List Nat) :=
  w.registrationAddress

/-- Go generated getter `GetRegistrationPayload`. -/
def getRegistrationPayload (w : C2SWrapper) : Option (List Nat) :=
  w.registrationPayload

/-- `(*server).processC2SWrapper` from main.go lines 138-173, translated
clause by clause.  The Go function ends with `proto.Marshal(payload)`;
per the convention above the canonical message itself is returned in the
`.ok` case (its fields stand for the serialized bytes). -/
def processC2SWrapper (clientToAPIProto : Option C2SWrapper) (clientAddr : List Nat) :
    Except String C2SWrapper :=
  match clientToAPIProto with
  | none => .error "unable to process nil C2SWrapper"
  | some p =>
    if (getSharedSecret p).length < regIDLen / 2 then
      .error "shared secret undefined or insufficient length"
    else
      let source : RegistrationSource :=
        if getRegistrationSource p = .Unspecified then .API
        else getRegistrationSource p
      let address : Option (List Nat) :=
        if getRegistrationAddress p = none ∨ getRegistrationSource p = .API then
          some clientAddr
        else
          getRegistrationAddress p
      .ok { sharedSecret := getSharedSecret p
            registrationSource := some source
            registrationAddress := address
            registrationPayload := getRegistrationPayload p }

/-- Last index of a character in a character list, or `none`.  Helper for the
model of `net.SplitHostPort`. -/
def lastIndexOfChar (c : Char) : List Char → Option Nat
  | [] => none
  | x :: xs =>
    match lastIndexOfChar c xs with
    | some i => some (i + 1)
    | none => if x = c then some 0 else none

/-- Model of `net.SplitHostPort` (external standard library), from its
documented behavior on unbracketed inputs: split at the last colon, error
(`none`) when there is no colon or the host part still contains a colon.
Bracketed (IPv6 literal) forms are conservatively treated as errors; no
theorem below evaluates the model at a bracketed input. -/
def splitHostPort (s : String) : Option (String × String) :=
  let cs := s.data
  if cs.contains '[' ∨ cs.contains ']' then none
  else
    match lastIndexOfChar ':' cs with
    | none => none
    | some i =>
      let host := cs.take i
      if host.contains ':' then none
      else some (⟨host⟩, ⟨cs.drop (i + 1)⟩)

/-- One dotted-decimal IPv4 field: 1-3 digits, no leading zero, value at most
255 (the standard library rejects leading zeros and out-of-range fields). -/
def parseV4Field (cs : List Char) : Option Nat :=
  if cs = [] then none
  else if ¬ cs.all Char.isDigit then none
  else if 3 < cs.length then none
  else if 1 < cs.length ∧ cs.head? = some '0' then none
  else
    let v := cs.foldl (fun a c => a * 10 + (c.toNat - 48)) 0
    if v ≤ 255 then some v else none

/-- The first 12 bytes of an IPv4-in-IPv6 16-byte address. -/
def v4Header : List Nat := [0, 0, 0, 0, 0, 0, 0, 0, 0, 0, 255, 255]

/-- Model of `net.ParseIP` (external standard library): parses a dotted-quad
IPv4 literal into the 16-byte IPv4-in-IPv6 form the library returns, `none`
(Go `nil`) otherwise.  IPv6 textual literals are outside the model: every
concrete string a theorem below evaluates this at is either an IPv4 literal
or not an IP address in any textual form, so the model agrees with the
library on all of them. -/
def goParseIP (s : String) : Option (List Nat) :=
  match (s.data.splitOn '.').mapM parseV4Field with
  | some [a, b, c, d] => some (v4Header ++ [a, b, c, d])
  | _ => none

/-- `parseIP` from main.go lines 247-264.  The Go function returns `*net.IP`:
the outer `Option` is the pointer (`none` = `nil` pointer), the inner
`Option` is the `net.IP` slice itself, which can be `nil` while the pointer
is not.  In the branch where `SplitHostPort` succeeds with a nonempty host,
the code returns `&addr` unconditionally, so a failed `net.ParseIP(host)`
yields `some none`: a non-nil pointer to a nil IP. -/
def parseIP (addrPort : String) : Option (Option (List Nat)) :=
  match splitHostPort addrPort with
  | none =>
    match goParseIP addrPort with
    | none => none
    | some addr => some (some addr)
  | some (host, _) =>
    if host = "" then
      match goParseIP addrPort with
      | none => none
      | some addr => some (some addr)
    else
      some (goParseIP host)

/-- Model of the `net.IP.To16` method: 4-byte addresses are mapped into the
16-byte form, 16-byte addresses are returned unchanged, anything else
(including a nil IP) yields nil. -/
def ipTo16 (ip : Option (List Nat)) : Option (List Nat) :=
  match ip with
  | none => none
  | some bs =>
    if bs.length = 4 then some (v4Header ++ bs)
    else if bs.length = 16 then some bs
    else none

/-- `register` lines 104-108: `clientAddrBytes` starts as 16 zero bytes
(`make([]byte, 16, 16)`) and is replaced by `[]byte(clientAddr.To16())`
whenever the `*net.IP` returned by `parseIP` is non-nil; `[]byte` of a nil
`To16` result is the empty (nil) slice. -/
def clientAddrBytesOf (requestIP : String) : List Nat :=
  match parseIP requestIP with
  | none => List.replicate 16 0
  | some ip =>
    match ipTo16 ip with
    | none => []
    | some bs => bs

/-- Spaces and tabs, the cutset of the `strings.Trim` call in
`getRemoteAddr`. -/
def isSpaceOrTab (c : Char) : Bool := c = ' ' ∨ c = '\t'

/-- Model of `strings.Trim(s, " \t")`: strip spaces and tabs from both
ends. -/
def goTrimSpaceTab (s : String) : String :=
  ⟨((s.data.dropWhile isSpaceOrTab).reverse.dropWhile isSpaceOrTab).reverse⟩

/-- `getRemoteAddr` from main.go lines 60-66: the first comma-separated entry
of the X-Forwarded-For header (trimmed of spaces and tabs) when the header is
nonempty, else the transport-level peer address. -/
def getRemoteAddr (xForwardedFor : String) (remoteAddr : String) : String :=
  if xForwardedFor ≠ "" then
    goTrimSpaceTab ⟨xForwardedFor.data.takeWhile (fun c => c ≠ ',')⟩
  else remoteAddr

/-- The parts of an `http.Request` that `register` reads.  `contentLength` is
Go's `int64` `ContentLength` (may be `-1` when unknown); `body` is the result
of `ioutil.ReadAll(r.Body)`, `none` standing for a read error. -/
structure Request where
  method : String
  contentLength : Int
  xForwardedFor : String
  remoteAddr : String
  body : Option (List Nat)

/-- Outcome of one `register` call: the HTTP status written, and whether
`s.messageAccepter` was invoked. -/
structure RegisterResult where
  status : Nat
  sendAttempted : Bool
  deriving DecidableEq, Repr

/-- `MinimumRequestLength = SecretLength + 1` from main.go line 77. -/
def MinimumRequestLength : Int := (SecretLength : Int) + 1

/-- `(*server).register` from main.go lines 68-128, translated branch by
branch.  `unmarshal` stands for `proto.Unmarshal` (external, `none` = decode
error); `send` stands for the server's `messageAccepter`, applied to the
message produced by `processC2SWrapper`.  Status numbers are the constants
the code uses: 405 `StatusMethodNotAllowed`, 400 `StatusBadRequest`,
500 `StatusInternalServerError`, 204 `StatusNoContent`. -/
def register (unmarshal : List Nat → Option C2SWrapper)
    (send : C2SWrapper → Except String Unit) (r : Request) : RegisterResult :=
  if r.method ≠ "POST" then ⟨405, false⟩
  else if r.contentLength < MinimumRequestLength then ⟨400, false⟩
  else
    match r.body with
    | none => ⟨400, false⟩
    | some inBytes =>
      match unmarshal inBytes with
      | none => ⟨400, false⟩
      | some payload =>
        let requestIP := getRemoteAddr r.xForwardedFor r.remoteAddr
        let clientAddrBytes := clientAddrBytesOf requestIP
        match processC2SWrapper (some payload) clientAddrBytes with
        | .error _ => ⟨500, false⟩
        | .ok outMsg =>
          match send outMsg with
          | .error _ => ⟨500, true⟩
          | .ok _ => ⟨204, true⟩

/-- The `config` struct from main.go lines 30-40 (TOML-decoded fields plus
the environment-derived `logClientIP`). -/
structure Config where
  APIPort : Nat
  ZMQPort : Nat
  PrivateKeyPath : String
  AuthType : String
  AuthVerbose : Bool
  StationPublicKeys : List String
  logClientIP : Bool
  deriving DecidableEq, Repr

/-- A Go byte slice with its spare capacity beyond the length.  For buffers
returned by `ioutil.ReadFile` the spare capacity is zero-filled: the backing
array is freshly allocated (zeroed) and only the file's bytes are written
into it. -/
structure GoBytes where
  data : List Nat
  spare : Nat
  deriving DecidableEq, Repr

/-- Model of `ioutil.ReadFile` (external standard library, an alias of
`os.ReadFile`): `fs` maps a path to the file's bytes (`none` = read error).
`os.ReadFile` allocates its buffer with capacity `max (size+1) 512`
(`size++` for the final EOF read, with a 512-byte minimum; the pre-Go-1.16
`ioutil` implementation likewise reserved `size + bytes.MinRead` = size+512),
so the returned slice always carries spare zero-filled capacity. -/
def ioutilReadFile (fs : String → Option (List Nat)) (path : String) : Option GoBytes :=
  (fs path).map fun bs => ⟨bs, max (bs.length + 1) 512 - bs.length⟩

/-- The Go slice expression `b[:high]`: legal whenever `high ≤ cap(b)` (not
`len(b)`; the Go specification bounds the high index by the capacity), in
which case elements between the length and `high` come from the backing
array's zero-filled spare region; `none` stands for the out-of-range
panic. -/
def goSliceTo (b : GoBytes) (high : Nat) : Option (List Nat) :=
  if high ≤ b.data.length + b.spare then
    some ((b.data ++ List.replicate b.spare 0).take high)
  else none

/-- The ZMQ authentication state the code manipulates: whether the auth
thread is running (`zmq.AuthStart` / `zmq.AuthStop`), the allow-listed peer
public keys (`zmq.AuthCurveAdd`), and the server key installed on the socket
(`sock.ServerAuthCurve`).  The socket key survives `AuthStop`; the allow
list does not. -/
structure AuthState where
  running : Bool
  allowed : List String
  sockKey : Option (List Nat)
  deriving DecidableEq, Repr

/-- Outcome of `setupAuth` / `loadNewConfig`: a new state, a controlled
`logger.Fatalln` process exit, or a runtime panic. -/
inductive SetupResult where
  | ok (st : AuthState)
  | fatal (msg : String)
  | panicked
  deriving DecidableEq, Repr

/-- `(*server).setupAuth` from main.go lines 216-243, translated branch by
branch.  When `AuthType` is not "CURVE" nothing at all happens.  Otherwise:
read the key file (fatal on error), take `privkeyBytes[:32]` (a Go slice
expression bounded by capacity, see `goSliceTo`), start the auth thread —
`zmq.AuthStart` errors when the thread is already running, which is the
non-idempotence the reload path works around, and the error is fatal — then
install the wildcard allow list with the configured station keys and bind
the 32 key bytes to the socket.  `zmq.AuthSetVerbose` and the `Z85encode`
string transcoding carry no state the claims touch and are omitted;
`ServerAuthCurve`'s own external failure mode is likewise fatal in the code
and not reachable in the model. -/
def setupAuth (cfg : Config) (fs : String → Option (List Nat)) (st : AuthState) : SetupResult :=
  if cfg.AuthType = "CURVE" then
    match ioutilReadFile fs cfg.PrivateKeyPath with
    | none => .fatal "failed to get private key"
    | some privkeyBytes =>
      match goSliceTo privkeyBytes 32 with
      | none => .panicked
      | some key32 =>
        if st.running then .fatal "failed to start zmq auth"
        else .ok ⟨true, cfg.StationPublicKeys, some key32⟩
  else .ok st

/-- `zmq.AuthStop`: the auth thread and its allow list are gone; the key
installed on the socket is a socket option and persists. -/
def authStop (st : AuthState) : AuthState := ⟨false, [], st.sockKey⟩

/-- One reload trigger: the freshly decoded configuration (`none` =
`toml.DecodeFile` error, fatal) and the file system visible to the key
read. -/
structure ReloadInput where
  cfg : Option Config
  fs : String → Option (List Nat)

/-- `(*server).loadNewConfig` from main.go lines 198-213 (its auth-relevant
effects; the lock discipline of lines 199-200 is modelled separately by
`zmqStep`): decode the config (fatal on error), then `zmq.AuthStop()`, then
`setupAuth` on the same socket. -/
def loadNewConfig (inp : ReloadInput) (st : AuthState) : SetupResult :=
  match inp.cfg with
  | none => .fatal "failed to load config"
  | some cfg => setupAuth cfg inp.fs (authStop st)

/-- A sequence of reload triggers run in order; a fatal exit or panic stops
the process. -/
def runReloads (inps : List ReloadInput) (st : AuthState) : SetupResult :=
  inps.foldl
    (fun acc inp =>
      match acc with
      | .ok st1 => loadNewConfig inp st1
      | other => other)
    (.ok st)

/-- A peer presenting public key `k` is admitted exactly when the auth
thread is running and `k` is on the current allow list. -/
def acceptsPeer (st : AuthState) (k : String) : Bool :=
  st.running && st.allowed.contains k

/-- The two tasks contending for the server's embedded `sync.Mutex`: an HTTP
request goroutine inside `sendToZMQ` and the signal-handler goroutine inside
`loadNewConfig`. -/
inductive Tid where
  | sender
  | reloader
  deriving DecidableEq, Repr

/-- Interleaving state for one send racing one reload.  `sendPC`: 0 before
`s.Lock()` (line 131), 1 holding the lock during `SendBytes` (line 132),
2 after `s.Unlock()` (line 133).  `reloadPC`: 0 before `s.Lock()`
(line 199), 1 holding the lock during the config decode (line 204), 2 still
holding it between `zmq.AuthStop()` and the end of `setupAuth` (lines
210-212, the mid-reauthentication window), 3 after the deferred unlock. -/
structure ZmqSys where
  owner : Option Tid
  sendPC : Nat
  reloadPC : Nat
  deriving DecidableEq, Repr

/-- The atomic steps of the two tasks.  Acquiring the mutex requires it to be
free; each task releases only at its own unlock point. -/
inductive zmqStep : ZmqSys → ZmqSys → Prop where
  | sendLock (s : ZmqSys) : s.owner = none → s.sendPC = 0 →
      zmqStep s ⟨some .sender, 1, s.reloadPC⟩
  | sendUnlock (s : ZmqSys) : s.sendPC = 1 →
      zmqStep s ⟨none, 2, s.reloadPC⟩
  | reloadLock (s : ZmqSys) : s.owner = none → s.reloadPC = 0 →
      zmqStep s ⟨some .reloader, s.sendPC, 1⟩
  | reloadAuthStop (s : ZmqSys) : s.reloadPC = 1 →
      zmqStep s ⟨s.owner, s.sendPC, 2⟩
  | reloadUnlock (s : ZmqSys) : s.reloadPC = 2 →
      zmqStep s ⟨none, s.sendPC, 3⟩

/-- Both tasks start outside their critical sections with the mutex free. -/
def zmqInit : ZmqSys := ⟨none, 0, 0⟩

/-- States reachable from `zmqInit` by any interleaving. -/
def zmqReachable (s : ZmqSys) : Prop := Relation.ReflTransGen zmqStep zmqInit s

/-- The inductive invariant: whoever is inside the mutex-protected region
owns the mutex. -/
def zmqInv (s : ZmqSys) : Prop :=
  (s.sendPC = 1 → s.owner = some .sender) ∧
  ((s.reloadPC = 1 ∨ s.reloadPC = 2) → s.owner = some .reloader)

/-- Characterization of the success case of `processC2SWrapper`: when the
shared secret passes the length floor the function returns exactly the
canonical message built by lines 149-169. -/
theorem processC2SWrapper_ok (w : C2SWrapper) (ca : List Nat)
    (h : ¬ (getSharedSecret w).length < regIDLen / 2) :
    processC2SWrapper (some w) ca = .ok
      { sharedSecret := getSharedSecret w
        registrationSource :=
          some (if getRegistrationSource w = .Unspecified then .API
                else getRegistrationSource w)
        registrationAddress :=
          if getRegistrationAddress w = none ∨ getRegistrationSource w = .API then
            some ca
          else getRegistrationAddress w
        registrationPayload := getRegistrationPayload w } := by
  simp [processC2SWrapper, h]

/-- Claim C1, counterexample.  The claim says the output address equals the
caller-supplied client address whenever the inbound address is absent or the
resolved (possibly-defaulted) output source is "API".  The code (main.go
lines 161-162) tests the inbound source, not the resolved one: an inbound
wrapper with an 8-byte secret, unset source and explicit address [9,9,9,9]
yields an output whose source resolved to "API" by defaulting, yet whose
address is the inbound [9,9,9,9], not the 16 zero client-address bytes. -/
theorem c1_counterexample :
    processC2SWrapper
        (some ⟨List.replicate 8 1, none, some [9, 9, 9, 9], none⟩)
        (List.replicate 16 0)
      = .ok ⟨List.replicate 8 1, some .API, some [9, 9, 9, 9], none⟩
    ∧ some [9, 9, 9, 9] ≠ some (List.replicate 16 0 : List Nat) := by
  exact ⟨rfl, by decide⟩

/-- Claim C1, amended.  For every accepted inbound wrapper, the output
address is the caller-supplied client address exactly when the inbound
address is absent OR the INBOUND (pre-defaulting) source is "API"; in every
other case — including an unset inbound source, which still defaults the
output source to "API" — the inbound address is copied through unchanged. -/
theorem c1_amended (w : C2SWrapper) (ca : List Nat) (out : C2SWrapper)
    (h : processC2SWrapper (some w) ca = .ok out) :
    (getRegistrationAddress w = none ∨ getRegistrationSource w = .API →
      out.registrationAddress = some ca)
    ∧ (getRegistrationAddress w ≠ none → getRegistrationSource w ≠ .API →
      out.registrationAddress = getRegistrationAddress w) := by
  by_cases hlen : (getSharedSecret w).length < regIDLen / 2
  · simp [processC2SWrapper, hlen] at h
  · rw [processC2SWrapper_ok w ca hlen] at h
    obtain rfl := (Except.ok.inj h).symm
    constructor
    · intro hc
      simp [hc]
    · intro ha hs
      have hcond : ¬ (getRegistrationAddress w = none ∨ getRegistrationSource w = .API) := by
        intro hor
        rcases hor with hor | hor
        · exact ha hor
        · exact hs hor
      simp [hcond]

/-- Witness for `c1_amended` at a concrete accepted wrapper with an explicit
non-API source, whose explicit address survives unchanged. -/
theorem c1_witness :
    processC2SWrapper
        (some ⟨List.replicate 8 1, some .Detector, some [4, 4], none⟩)
        (List.replicate 16 0)
      = .ok ⟨List.replicate 8 1, some .Detector, some [4, 4], none⟩
    ∧ ((getRegistrationAddress ⟨List.replicate 8 1, some .Detector, some [4, 4], none⟩ = none ∨
        getRegistrationSource ⟨List.replicate 8 1, some .Detector, some [4, 4], none⟩ = .API →
        (C2SWrapper.registrationAddress ⟨List.replicate 8 1, some .Detector, some [4, 4], none⟩)
          = some (List.replicate 16 0))
      ∧ (getRegistrationAddress ⟨List.replicate 8 1, some .Detector, some [4, 4], none⟩ ≠ none →
        getRegistrationSource ⟨List.replicate 8 1, some .Detector, some [4, 4], none⟩ ≠ .API →
        (C2SWrapper.registrationAddress ⟨List.replicate 8 1, some .Detector, some [4, 4], none⟩)
          = getRegistrationAddress ⟨List.replicate 8 1, some .Detector, some [4, 4], none⟩)) :=
  ⟨rfl, c1_amended ⟨List.replicate 8 1, some .Detector, some [4, 4], none⟩
    (List.replicate 16 0) ⟨List.replicate 8 1, some .Detector, some [4, 4], none⟩ rfl⟩

/-- Claim C2: every non-nil inbound wrapper whose shared secret meets the
8-byte floor is processed successfully, and the shared secret and
registration payload of the output message are byte-for-byte those of the
inbound wrapper. -/
theorem c2_preservation (w : C2SWrapper) (ca : List Nat)
    (h : regIDLen / 2 ≤ (getSharedSecret w).length) :
    (processC2SWrapper (some w) ca).toOption.map C2SWrapper.sharedSecret
        = some (getSharedSecret w)
    ∧ (processC2SWrapper (some w) ca).toOption.map C2SWrapper.registrationPayload
        = some (getRegistrationPayload w) := by
  rw [processC2SWrapper_ok w ca (not_lt.mpr h)]
  exact ⟨rfl, rfl⟩

/-- Witness for `c2_preservation` at a concrete 8-byte-secret wrapper. -/
theorem c2_witness :
    regIDLen / 2 ≤ (getSharedSecret ⟨List.replicate 8 2, none, none, some [5]⟩).length
    ∧ (processC2SWrapper (some ⟨List.replicate 8 2, none, none, some [5]⟩) []).toOption.map
        C2SWrapper.sharedSecret
        = some (getSharedSecret ⟨List.replicate 8 2, none, none, some [5]⟩)
    ∧ (processC2SWrapper (some ⟨List.replicate 8 2, none, none, some [5]⟩) []).toOption.map
        C2SWrapper.registrationPayload
        = some (getRegistrationPayload ⟨List.replicate 8 2, none, none, some [5]⟩) :=
  ⟨by decide, c2_preservation ⟨List.replicate 8 2, none, none, some [5]⟩ [] (by decide)⟩

/-- Claim C4: for every accepted inbound wrapper the output source is "API"
when the inbound source is unset (the getter yields `Unspecified` both for a
nil field and for an explicit `Unspecified`), is the inbound source
unchanged otherwise, and is always populated. -/
theorem c4_source_default (w : C2SWrapper) (ca : List Nat) (out : C2SWrapper)
    (h : processC2SWrapper (some w) ca = .ok out) :
    (getRegistrationSource w = .Unspecified → out.registrationSource = some .API)
    ∧ (getRegistrationSource w ≠ .Unspecified →
        out.registrationSource = some (getRegistrationSource w))
    ∧ out.registrationSource ≠ none := by
  by_cases hlen : (getSharedSecret w).length < regIDLen / 2
  · simp [processC2SWrapper, hlen] at h
  · rw [processC2SWrapper_ok w ca hlen] at h
    obtain rfl := (Except.ok.inj h).symm
    refine ⟨fun hu => ?_, fun hu => ?_, by simp⟩
    · simp [hu]
    · simp [hu]

/-- Witness for `c4_source_default` at a concrete wrapper with unset
source. -/
theorem c4_witness :
    processC2SWrapper (some ⟨List.replicate 9 3, none, none, none⟩) []
      = .ok ⟨List.replicate 9 3, some .API, some [], none⟩
    ∧ ((getRegistrationSource ⟨List.replicate 9 3, none, none, none⟩ = .Unspecified →
        (C2SWrapper.registrationSource ⟨List.replicate 9 3, some .API, some [], none⟩)
          = some .API)
      ∧ (getRegistrationSource ⟨List.replicate 9 3, none, none, none⟩ ≠ .Unspecified →
        (C2SWrapper.registrationSource ⟨List.replicate 9 3, some .API, some [], none⟩)
          = some (getRegistrationSource ⟨List.replicate 9 3, none, none, none⟩))
      ∧ (C2SWrapper.registrationSource ⟨List.replicate 9 3, some .API, some [], none⟩) ≠ none) :=
  ⟨rfl, c4_source_default ⟨List.replicate 9 3, none, none, none⟩ []
    ⟨List.replicate 9 3, some .API, some [], none⟩ rfl⟩

/-- Claim C3: `processC2SWrapper` fails exactly on a nil wrapper or a shared
secret shorter than `regIDLen/2` = 8 bytes; and whenever the decoded wrapper
of a request is below the floor, `register` attempts no send.  (The only
other fallible step of the Go function is the final `proto.Marshal`, which
the embedding treats as the out-of-scope total serializer, so "validation
error" and "error" coincide here.) -/
theorem c3_validation :
    (∀ ca, processC2SWrapper none ca
        = .error "unable to process nil C2SWrapper")
    ∧ (∀ w ca, (processC2SWrapper (some w) ca).isOk = false ↔
        (getSharedSecret w).length < regIDLen / 2)
    ∧ (∀ (um : List Nat → Option C2SWrapper) (send : C2SWrapper → Except String Unit)
        (r : Request) (inBytes : List Nat) (w : C2SWrapper),
        r.body = some inBytes → um inBytes = some w →
        (getSharedSecret w).length < regIDLen / 2 →
        (register um send r).sendAttempted = false) := by
  refine ⟨fun ca => rfl, fun w ca => ?_, ?_⟩
  · by_cases hlen : (getSharedSecret w).length < regIDLen / 2
    · simp [processC2SWrapper, hlen, Except.isOk, Except.toBool]
    · simp [processC2SWrapper_ok w ca hlen, Except.isOk, Except.toBool, hlen]
  · intro um send r inBytes w hb hw hlen
    unfold register
    split
    · rfl
    · split
      · rfl
      · have hproc : processC2SWrapper (some w)
            (clientAddrBytesOf (getRemoteAddr r.xForwardedFor r.remoteAddr))
            = .error "shared secret undefined or insufficient length" := by
          simp [processC2SWrapper, hlen]
        simp [hb, hw, hproc]

/-- Witness for `c3_validation`: a POST request whose 4-byte-secret wrapper
is rejected, hence never sent. -/
theorem c3_witness :
    (register (fun _ => some ⟨[1, 2, 3, 4], none, none, none⟩) (fun _ => .ok ())
      ⟨"POST", 50, "", "1.2.3.4:9", some [0]⟩).sendAttempted = false :=
  c3_validation.2.2 (fun _ => some ⟨[1, 2, 3, 4], none, none, none⟩) (fun _ => .ok ())
    ⟨"POST", 50, "", "1.2.3.4:9", some [0]⟩ [0] ⟨[1, 2, 3, 4], none, none, none⟩
    rfl rfl (by decide)

/-- Every `register` call produces one of exactly five outcome records,
one per branch of the handler. -/
theorem register_total (um : List Nat → Option C2SWrapper)
    (send : C2SWrapper → Except String Unit) (r : Request) :
    register um send r = ⟨405, false⟩ ∨ register um send r = ⟨400, false⟩ ∨
    register um send r = ⟨500, false⟩ ∨ register um send r = ⟨500, true⟩ ∨
    register um send r = ⟨204, true⟩ := by
  by_cases hm : r.method = "POST"
  · by_cases hc : r.contentLength < MinimumRequestLength
    · exact Or.inr (Or.inl (by simp [register, hm, hc]))
    · cases hb : r.body with
      | none => exact Or.inr (Or.inl (by simp [register, hm, hc, hb]))
      | some b =>
        cases hu : um b with
        | none => exact Or.inr (Or.inl (by simp [register, hm, hc, hb, hu]))
        | some w =>
          cases hp : processC2SWrapper (some w)
              (clientAddrBytesOf (getRemoteAddr r.xForwardedFor r.remoteAddr)) with
          | error e =>
            exact Or.inr (Or.inr (Or.inl (by simp [register, hm, hc, hb, hu, hp])))
          | ok out =>
            cases hs : send out with
            | error e =>
              exact Or.inr (Or.inr (Or.inr (Or.inl
                (by simp [register, hm, hc, hb, hu, hp, hs]))))
            | ok u =>
              exact Or.inr (Or.inr (Or.inr (Or.inr
                (by simp [register, hm, hc, hb, hu, hp, hs]))))
  · exact Or.inl (by simp [register, hm])

/-- Claim C5: the `register` handler maps every request to exactly one
status code, in the code's own order: 405 for a non-POST method; 400 for a
content length below `MinimumRequestLength` = 33, an unreadable body, or an
undecodable protobuf; 500 when processing fails (no send attempted) or the
send fails; 204 only when the send to the transport has completed
successfully. -/
theorem c5_status_codes (um : List Nat → Option C2SWrapper)
    (send : C2SWrapper → Except String Unit) (r : Request) :
    (r.method ≠ "POST" → register um send r = ⟨405, false⟩)
    ∧ (r.method = "POST" → r.contentLength < MinimumRequestLength →
        register um send r = ⟨400, false⟩)
    ∧ (r.method = "POST" → ¬ r.contentLength < MinimumRequestLength →
        r.body = none → register um send r = ⟨400, false⟩)
    ∧ (∀ b, r.method = "POST" → ¬ r.contentLength < MinimumRequestLength →
        r.body = some b → um b = none → register um send r = ⟨400, false⟩)
    ∧ (∀ b w e, r.method = "POST" → ¬ r.contentLength < MinimumRequestLength →
        r.body = some b → um b = some w →
        processC2SWrapper (some w)
            (clientAddrBytesOf (getRemoteAddr r.xForwardedFor r.remoteAddr)) = .error e →
        register um send r = ⟨500, false⟩)
    ∧ (∀ b w out e, r.method = "POST" → ¬ r.contentLength < MinimumRequestLength →
        r.body = some b → um b = some w →
        processC2SWrapper (some w)
            (clientAddrBytesOf (getRemoteAddr r.xForwardedFor r.remoteAddr)) = .ok out →
        send out = .error e → register um send r = ⟨500, true⟩)
    ∧ (∀ b w out, r.method = "POST" → ¬ r.contentLength < MinimumRequestLength →
        r.body = some b → um b = some w →
        processC2SWrapper (some w)
            (clientAddrBytesOf (getRemoteAddr r.xForwardedFor r.remoteAddr)) = .ok out →
        send out = .ok () → register um send r = ⟨204, true⟩)
    ∧ ((register um send r).status = 204 → (register um send r).sendAttempted = true)
    ∧ ((register um send r).status = 405 ∨ (register um send r).status = 400 ∨
        (register um send r).status = 500 ∨ (register um send r).status = 204) := by
  refine ⟨fun hm => by simp [register, hm],
    fun hm hc => by simp [register, hm, hc],
    fun hm hc hb => by simp [register, hm, hc, hb],
    fun b hm hc hb hu => by simp [register, hm, hc, hb, hu],
    fun b w e hm hc hb hu hp => by simp [register, hm, hc, hb, hu, hp],
    fun b w out e hm hc hb hu hp hs => by simp [register, hm, hc, hb, hu, hp, hs],
    fun b w out hm hc hb hu hp hs => by simp [register, hm, hc, hb, hu, hp, hs],
    ?_, ?_⟩
  · rcases register_total um send r with h | h | h | h | h <;> rw [h] <;> decide
  · rcases register_total um send r with h | h | h | h | h <;> rw [h] <;> simp

/-- Witness for `c5_status_codes` at a concrete successful request from
observed address 203.0.113.5: the response is 204 and the send happened. -/
theorem c5_witness :
    ((⟨"POST", 40, "", "203.0.113.5:4567", some [0]⟩ : Request).method = "POST")
    ∧ register (fun _ => some ⟨List.replicate 32 6, none, none, none⟩) (fun _ => .ok ())
        ⟨"POST", 40, "", "203.0.113.5:4567", some [0]⟩ = ⟨204, true⟩ :=
  ⟨rfl, (c5_status_codes (fun _ => some ⟨List.replicate 32 6, none, none, none⟩)
      (fun _ => .ok ()) ⟨"POST", 40, "", "203.0.113.5:4567", some [0]⟩).2.2.2.2.2.2.1
    [0] ⟨List.replicate 32 6, none, none, none⟩
    ⟨List.replicate 32 6, some .API,
      some [0, 0, 0, 0, 0, 0, 0, 0, 0, 0, 255, 255, 203, 0, 113, 5], none⟩
    rfl (by decide) rfl rfl rfl rfl⟩

/-- Claim C6, evaluation at the failing input.  For the request address
string "example.com:443", `SplitHostPort` succeeds with host "example.com",
`net.ParseIP` of that host fails, and `parseIP` returns a non-nil pointer to
a nil IP (`some none`) — contradicting its own doc comment "Returns nil if
parse fails".  `register` then takes the non-nil branch and
`[]byte(clientAddr.To16())` produces the empty slice: the address handed to
`processC2SWrapper` has length 0, not the claimed 16 zero bytes. -/
theorem c6_code_eval :
    parseIP "example.com:443" = some none
    ∧ clientAddrBytesOf "example.com:443" = ([] : List Nat)
    ∧ (clientAddrBytesOf "example.com:443").length = 0
    ∧ List.replicate 16 0 ≠ ([] : List Nat) :=
  ⟨rfl, rfl, rfl, by decide⟩

/-- The mutual-exclusion invariant is preserved by every interleaving
step. -/
theorem zmqStep_inv {s t : ZmqSys} (h : zmqStep s t) (hs : zmqInv s) : zmqInv t := by
  cases h with
  | sendLock h1 h2 =>
    refine ⟨fun _ => rfl, fun hr => ?_⟩
    have hr2 : s.reloadPC = 1 ∨ s.reloadPC = 2 := hr
    have h3 := hs.2 hr2
    rw [h1] at h3
    exact absurd h3 (by decide)
  | sendUnlock h1 =>
    refine ⟨fun h2 => ?_, fun hr => ?_⟩
    · have h22 : (2 : Nat) = 1 := h2
      exact absurd h22 (by decide)
    · have hr2 : s.reloadPC = 1 ∨ s.reloadPC = 2 := hr
      have h3 := hs.1 h1
      have h4 := hs.2 hr2
      rw [h3] at h4
      exact absurd h4 (by decide)
  | reloadLock h1 h2 =>
    refine ⟨fun h3 => ?_, fun _ => rfl⟩
    have h32 : s.sendPC = 1 := h3
    have h4 := hs.1 h32
    rw [h1] at h4
    exact absurd h4 (by decide)
  | reloadAuthStop h1 =>
    refine ⟨fun h2 => ?_, fun _ => ?_⟩
    · have h22 : s.sendPC = 1 := h2
      have h3 := hs.1 h22
      have h4 := hs.2 (Or.inl h1)
      rw [h3] at h4
      exact absurd h4 (by decide)
    · exact hs.2 (Or.inl h1)
  | reloadUnlock h1 =>
    refine ⟨fun h2 => ?_, fun hr => ?_⟩
    · have h22 : s.sendPC = 1 := h2
      have h3 := hs.1 h22
      have h4 := hs.2 (Or.inr h1)
      rw [h3] at h4
      exact absurd h4 (by decide)
    · have hr2 : (3 : Nat) = 1 ∨ (3 : Nat) = 2 := hr
      exact absurd hr2 (by decide)

/-- Claim C7: `sendToZMQ` (main.go lines 130-136) and `loadNewConfig`
(lines 198-213) take the same `s.Lock()` on the server's embedded mutex, so
in every interleaving reachable from the initial state, the sender is never
inside `SendBytes` while the reloader holds the lock — neither during the
config decode nor mid-reauthentication between `AuthStop` and the end of
`setupAuth`.  A send therefore either completes entirely before a reload
acquires the lock or waits until the reload has released it. -/
theorem c7_mutual_exclusion (s : ZmqSys) (h : zmqReachable s) :
    ¬ (s.sendPC = 1 ∧ (s.reloadPC = 1 ∨ s.reloadPC = 2)) := by
  suffices hinv : zmqInv s by
    rintro ⟨h1, h2⟩
    have h3 := hinv.1 h1
    have h4 := hinv.2 h2
    rw [h3] at h4
    exact absurd h4 (by simp)
  unfold zmqReachable at h
  induction h with
  | refl => exact ⟨fun hx => absurd hx (by decide), fun hx => absurd hx (by decide)⟩
  | tail h1 h2 ih => exact zmqStep_inv h2 ih

/-- Witness for `c7_mutual_exclusion` at the reachable state where the
sender has just acquired the lock. -/
theorem c7_witness :
    zmqReachable ⟨some .sender, 1, 0⟩
    ∧ ¬ ((⟨some .sender, 1, 0⟩ : ZmqSys).sendPC = 1 ∧
        ((⟨some .sender, 1, 0⟩ : ZmqSys).reloadPC = 1 ∨
         (⟨some .sender, 1, 0⟩ : ZmqSys).reloadPC = 2)) :=
  have hr : zmqReachable ⟨some .sender, 1, 0⟩ :=
    Relation.ReflTransGen.single (zmqStep.sendLock zmqInit rfl rfl)
  ⟨hr, c7_mutual_exclusion ⟨some .sender, 1, 0⟩ hr⟩

/-- A buffer returned by `ioutil.ReadFile` always has total capacity (length
plus spare) of at least 512 bytes. -/
theorem ioutilReadFile_spare (fs : String → Option (List Nat)) (path : String)
    (pk : GoBytes) (h : ioutilReadFile fs path = some pk) :
    512 ≤ pk.data.length + pk.spare := by
  unfold ioutilReadFile at h
  cases hfs : fs path with
  | none => rw [hfs] at h; simp at h
  | some bs =>
    rw [hfs] at h
    obtain rfl := (Option.some.inj h).symm
    have h1 : bs.length ≤ max (bs.length + 1) 512 :=
      le_trans (Nat.le_succ _) (Nat.le_max_left _ _)
    show 512 ≤ bs.length + (max (bs.length + 1) 512 - bs.length)
    rw [Nat.add_sub_cancel' h1]
    exact Nat.le_max_right _ _

/-- Claim C8: each reload runs `zmq.AuthStop()` strictly before `setupAuth`
re-installs authentication state, so after any nonempty sequence of reloads
that leaves the process alive, a peer key is accepted only if the LAST
reload's configuration is in CURVE mode and lists that key — a key present
only in an earlier, since-replaced configuration is never accepted. -/
theorem c8_no_stale_keys (st0 : AuthState) (inps : List ReloadInput)
    (last : ReloadInput) (st : AuthState) (k : String)
    (hrun : runReloads (inps ++ [last]) st0 = .ok st)
    (hacc : acceptsPeer st k = true) :
    ∃ cfg, last.cfg = some cfg ∧ cfg.AuthType = "CURVE" ∧
      k ∈ cfg.StationPublicKeys := by
  have hsplit : runReloads (inps ++ [last]) st0
      = (match runReloads inps st0 with
         | .ok st1 => loadNewConfig last st1
         | other => other) := by
    unfold runReloads
    rw [List.foldl_append]
    rfl
  rw [hsplit] at hrun
  cases hmid : runReloads inps st0 with
  | fatal m => rw [hmid] at hrun; simp at hrun
  | panicked => rw [hmid] at hrun; simp at hrun
  | ok st1 =>
    rw [hmid] at hrun
    cases hcfg : last.cfg with
    | none =>
      unfold loadNewConfig at hrun
      simp [hcfg] at hrun
    | some cfg =>
      unfold loadNewConfig at hrun
      simp only [hcfg] at hrun
      by_cases hct : cfg.AuthType = "CURVE"
      · cases hrf : ioutilReadFile last.fs cfg.PrivateKeyPath with
        | none =>
          have he : setupAuth cfg last.fs (authStop st1)
              = .fatal "failed to get private key" := by
            simp [setupAuth, hct, hrf]
          rw [he] at hrun
          simp at hrun
        | some pk =>
          cases hsl : goSliceTo pk 32 with
          | none =>
            have he : setupAuth cfg last.fs (authStop st1) = .panicked := by
              simp [setupAuth, hct, hrf, hsl]
            rw [he] at hrun
            simp at hrun
          | some key =>
            have he : setupAuth cfg last.fs (authStop st1)
                = .ok ⟨true, cfg.StationPublicKeys, some key⟩ := by
              simp [setupAuth, hct, hrf, hsl, authStop]
            rw [he] at hrun
            obtain rfl := SetupResult.ok.inj hrun
            simp only [acceptsPeer, Bool.and_eq_true] at hacc
            exact ⟨cfg, rfl, hct, by simpa using hacc.2⟩
      · have he : setupAuth cfg last.fs (authStop st1) = .ok (authStop st1) := by
          simp [setupAuth, hct]
        rw [he] at hrun
        obtain rfl := SetupResult.ok.inj hrun
        simp [acceptsPeer, authStop] at hacc

/-- A CURVE-mode configuration with one allowed station key. -/
def sampleCurveConfig : Config :=
  ⟨8080, 5599, "keyfile", "CURVE", false, ["stationA"], false⟩

/-- A file system holding a 40-byte private-key file. -/
def sampleKeyFs : String → Option (List Nat) :=
  fun p => if p = "keyfile" then some (List.replicate 40 7) else none

/-- One reload trigger loading `sampleCurveConfig`. -/
def sampleReload : ReloadInput := ⟨some sampleCurveConfig, sampleKeyFs⟩

/-- Witness for `c8_no_stale_keys`: a single reload installing
`sampleCurveConfig`, after which "stationA" is accepted and indeed listed by
that (last) configuration in CURVE mode. -/
theorem c8_witness :
    runReloads ([] ++ [sampleReload]) ⟨false, [], none⟩
      = .ok ⟨true, ["stationA"], some (List.replicate 32 7)⟩
    ∧ acceptsPeer ⟨true, ["stationA"], some (List.replicate 32 7)⟩ "stationA" = true
    ∧ ∃ cfg, sampleReload.cfg = some cfg ∧ cfg.AuthType = "CURVE" ∧
        "stationA" ∈ cfg.StationPublicKeys :=
  ⟨by decide, rfl,
    c8_no_stale_keys ⟨false, [], none⟩ [] sampleReload
      ⟨true, ["stationA"], some (List.replicate 32 7)⟩ "stationA" (by decide) rfl⟩

/-- Claim C9: when the configured auth type is not "CURVE", `setupAuth`
returns the state unchanged with no fatal exit and no panic, for EVERY file
system — in particular it reads no key file, starts no auth subsystem, and
leaves the transport state exactly as it was. -/
theorem c9_noop (cfg : Config) (fs : String → Option (List Nat)) (st : AuthState)
    (h : cfg.AuthType ≠ "CURVE") : setupAuth cfg fs st = .ok st := by
  simp [setupAuth, h]

/-- A configuration with authentication disabled. -/
def sampleNullConfig : Config := ⟨8080, 5599, "keyfile", "NULL", false, [], false⟩

/-- Witness for `c9_noop`: with auth type "NULL" and a file system where
every read fails, the auth state passes through untouched. -/
theorem c9_witness :
    sampleNullConfig.AuthType ≠ "CURVE"
    ∧ setupAuth sampleNullConfig (fun _ => none) ⟨true, ["x"], some [1]⟩
        = .ok ⟨true, ["x"], some [1]⟩ :=
  ⟨by decide, c9_noop sampleNullConfig (fun _ => none) ⟨true, ["x"], some [1]⟩ (by decide)⟩

/-- A file system holding an 8-byte (shorter than 32) private-key file. -/
def shortKeyFs : String → Option (List Nat) :=
  fun p => if p = "keyfile" then some (List.replicate 8 9) else none

/-- Claim C10, counterexample.  The claim says a readable key file of fewer
than 32 bytes makes `setupAuth` panic on `privkeyBytes[:32]`.  It does not:
a Go slice expression is bounded by the capacity, not the length, and the
buffer `ioutil.ReadFile` returns always has at least 512 bytes of zero-filled
capacity — with an 8-byte key file, `setupAuth` completes normally and
silently installs the 8 file bytes zero-padded to 32 as the private key. -/
theorem c10_counterexample :
    setupAuth sampleCurveConfig shortKeyFs ⟨false, [], none⟩
      = .ok ⟨true, ["stationA"], some (List.replicate 8 9 ++ List.replicate 24 0)⟩
    ∧ setupAuth sampleCurveConfig shortKeyFs ⟨false, [], none⟩ ≠ .panicked :=
  ⟨by decide, by decide⟩

/-- Claim C10, amended: `setupAuth` never reaches the panic outcome at all —
the slice `privkeyBytes[:32]` is always within the ReadFile buffer's
capacity — and for any readable key file of at most 32 bytes (auth not yet
running) it completes with the file bytes zero-padded to 32 bytes as the
installed key. -/
theorem c10_amended (cfg : Config) (fs : String → Option (List Nat)) (st : AuthState) :
    setupAuth cfg fs st ≠ .panicked
    ∧ (∀ bs, cfg.AuthType = "CURVE" → fs cfg.PrivateKeyPath = some bs →
        bs.length ≤ 32 → st.running = false →
        setupAuth cfg fs st
          = .ok ⟨true, cfg.StationPublicKeys,
              some (bs ++ List.replicate (32 - bs.length) 0)⟩) := by
  constructor
  · by_cases hct : cfg.AuthType = "CURVE"
    · cases hrf : ioutilReadFile fs cfg.PrivateKeyPath with
      | none => simp [setupAuth, hct, hrf]
      | some pk =>
        have hcap := ioutilReadFile_spare fs cfg.PrivateKeyPath pk hrf
        have h32 : goSliceTo pk 32
            = some ((pk.data ++ List.replicate pk.spare 0).take 32) := by
          unfold goSliceTo
          rw [if_pos (by omega)]
        cases hst : st.running <;> simp [setupAuth, hct, hrf, h32, hst]
    · simp [setupAuth, hct]
  · intro bs hct hfs hlen hst
    have hrf : ioutilReadFile fs cfg.PrivateKeyPath
        = some ⟨bs, max (bs.length + 1) 512 - bs.length⟩ := by
      simp [ioutilReadFile, hfs]
    have hspare : 32 - bs.length ≤ max (bs.length + 1) 512 - bs.length := by
      have h512 : (512 : Nat) ≤ max (bs.length + 1) 512 := Nat.le_max_right _ _
      have : (32 : Nat) ≤ max (bs.length + 1) 512 := le_trans (by norm_num) h512
      omega
    have htake : ((bs ++ List.replicate (max (bs.length + 1) 512 - bs.length) 0).take 32)
        = bs ++ List.replicate (32 - bs.length) 0 := by
      rw [List.take_append_eq_append_take, List.take_replicate,
        List.take_of_length_le hlen, Nat.min_eq_left hspare]
    have h32 : goSliceTo ⟨bs, max (bs.length + 1) 512 - bs.length⟩ 32
        = some (bs ++ List.replicate (32 - bs.length) 0) := by
      have h1 : bs.length ≤ max (bs.length + 1) 512 :=
        le_trans (Nat.le_succ _) (Nat.le_max_left _ _)
      have h2 : 32 ≤ bs.length + (max (bs.length + 1) 512 - bs.length) := by
        rw [Nat.add_sub_cancel' h1]
        exact le_trans (by norm_num) (Nat.le_max_right _ _)
      unfold goSliceTo
      split
      · exact congrArg some htake
      · exact absurd h2 (by assumption)
    simp [setupAuth, hct, hrf, h32, hst]

/-- Witness for `c10_amended`: the 8-byte key file of `shortKeyFs` yields a
normal completion with the zero-padded key. -/
theorem c10_witness :
    sampleCurveConfig.AuthType = "CURVE"
    ∧ shortKeyFs sampleCurveConfig.PrivateKeyPath = some (List.replicate 8 9)
    ∧ (List.replicate 8 9).length ≤ 32
    ∧ setupAuth sampleCurveConfig shortKeyFs ⟨false, [], none⟩
        = .ok ⟨true, sampleCurveConfig.StationPublicKeys,
            some (List.replicate 8 9 ++ List.replicate (32 - (List.replicate 8 9).length) 0)⟩ :=
  ⟨rfl, rfl, by decide,
    (c10_amended sampleCurveConfig shortKeyFs ⟨false, [], none⟩).2
      (List.replicate 8 9) rfl rfl (by decide) rfl⟩

end Conjure
